import Mathlib

/-!
Verification of the Aspora design-system `Slider` component
(`src/components/Slider.tsx`, first implementation, lines 1-367).

The slider is shallowly embedded: JavaScript numbers are modelled by `ℚ`
where the computation stays finite, and by `JSNum` (a tagged type with
`nan`, `posInf`, `negInf` and finite values) for `getPositionFromEvent`,
whose division can hit a zero track width.  Event-handler side effects
(`onChange` / `onRangeChange` callbacks) are modelled as explicit
`SliderOutput` values, and the mutable refs (`draggingRef`, the set of
global document listeners) as an explicit `SliderState` threaded through
the handlers.
-/

namespace AsporaSlider

/-- JavaScript `Math.round` on a finite number: round to the nearest
integer with ties going toward positive infinity, i.e. `⌊x + 1/2⌋`. -/
def jsRound (x : ℚ) : ℚ := (⌊x + 1/2⌋ : ℤ)

/-- Model of a JavaScript number for the geometry pipeline: either a
finite rational or one of the IEEE-754 special values. -/
inductive JSNum where
  | nan : JSNum
  | posInf : JSNum
  | negInf : JSNum
  | fin : ℚ → JSNum
deriving DecidableEq

/-- JavaScript subtraction `a - b` on `JSNum` (IEEE-754 semantics). -/
def jsSub : JSNum → JSNum → JSNum
  | .nan, _ => .nan
  | _, .nan => .nan
  | .posInf, .posInf => .nan
  | .posInf, _ => .posInf
  | .negInf, .negInf => .nan
  | .negInf, _ => .negInf
  | .fin _, .posInf => .negInf
  | .fin _, .negInf => .posInf
  | .fin a, .fin b => .fin (a - b)

/-- JavaScript division `a / b` on `JSNum` (IEEE-754 semantics; `ℚ` has
no signed zero, so a zero divisor is treated as `+0`, which matches the
DOM's `getBoundingClientRect().width` being `+0` when degenerate). -/
def jsDiv : JSNum → JSNum → JSNum
  | .nan, _ => .nan
  | _, .nan => .nan
  | .posInf, .posInf => .nan
  | .posInf, .negInf => .nan
  | .negInf, .posInf => .nan
  | .negInf, .negInf => .nan
  | .posInf, .fin b => if b < 0 then .negInf else .posInf
  | .negInf, .fin b => if b < 0 then .posInf else .negInf
  | .fin _, .posInf => .fin 0
  | .fin _, .negInf => .fin 0
  | .fin a, .fin b =>
      if b = 0 then (if a = 0 then .nan else if 0 < a then .posInf else .negInf)
      else .fin (a / b)

/-- JavaScript multiplication `a * b` on `JSNum` (IEEE-754 semantics). -/
def jsMul : JSNum → JSNum → JSNum
  | .nan, _ => .nan
  | _, .nan => .nan
  | .posInf, .posInf => .posInf
  | .posInf, .negInf => .negInf
  | .negInf, .posInf => .negInf
  | .negInf, .negInf => .posInf
  | .posInf, .fin b => if b = 0 then .nan else if 0 < b then .posInf else .negInf
  | .negInf, .fin b => if b = 0 then .nan else if 0 < b then .negInf else .posInf
  | .fin a, .posInf => if a = 0 then .nan else if 0 < a then .posInf else .negInf
  | .fin a, .negInf => if a = 0 then .nan else if 0 < a then .negInf else .posInf
  | .fin a, .fin b => .fin (a * b)

/-- JavaScript `Math.max` on `JSNum`: any `NaN` argument gives `NaN`. -/
def jsMax : JSNum → JSNum → JSNum
  | .nan, _ => .nan
  | _, .nan => .nan
  | .posInf, _ => .posInf
  | _, .posInf => .posInf
  | .negInf, b => b
  | a, .negInf => a
  | .fin a, .fin b => .fin (max a b)

/-- JavaScript `Math.min` on `JSNum`: any `NaN` argument gives `NaN`. -/
def jsMin : JSNum → JSNum → JSNum
  | .nan, _ => .nan
  | _, .nan => .nan
  | .negInf, _ => .negInf
  | _, .negInf => .negInf
  | .posInf, b => b
  | a, .posInf => a
  | .fin a, .fin b => .fin (min a b)

/-- The slice of `propsRef.current` the event handlers read: the `min`,
`max`, `step`, `value`, `rangeValue` and `disabled` props (the callbacks
themselves are modelled by the emitted `SliderOutput`). -/
structure SliderConfig where
  min : ℚ
  max : ℚ
  step : ℚ
  value : ℚ
  rangeValue : ℚ × ℚ
  disabled : Bool
deriving DecidableEq

/-- Embedding of `percentToValue` (Slider.tsx lines 67-72):
`rawValue = (percent / 100) * (max - min) + min`, then
`steppedValue = Math.round(rawValue / step) * step`, then
`Math.min(max, Math.max(min, steppedValue))`. -/
def percentToValue (cfg : SliderConfig) (percent : ℚ) : ℚ :=
  let rawValue := (percent / 100) * (cfg.max - cfg.min) + cfg.min
  let steppedValue := jsRound (rawValue / cfg.step) * cfg.step
  min cfg.max (max cfg.min steppedValue)

/-- Track geometry as returned by `getBoundingClientRect()`: the `left`
origin and the `width` of the track element. -/
structure TrackRect where
  left : ℚ
  width : ℚ
deriving DecidableEq

/-- Duck-typed input event shape: an optional `touches` list, an optional
`changedTouches` list, and an optional `clientX` field, each carrying the
horizontal coordinate(s). `none` models the property being absent. -/
structure SliderEvent where
  touches : Option (List ℚ)
  changedTouches : Option (List ℚ)
  clientX : Option ℚ
deriving DecidableEq

/-- The `clientX` extraction chain of `getPositionFromEvent` (lines
80-88): a non-empty `touches` list wins, then a non-empty
`changedTouches` list, then a plain `clientX` field; otherwise nothing. -/
def eventClientX (e : SliderEvent) : Option ℚ :=
  match e.touches with
  | some (x :: _) => some x
  | _ =>
    match e.changedTouches with
    | some (x :: _) => some x
    | _ => e.clientX

/-- Embedding of `getPositionFromEvent` (lines 75-92).  `track = none`
models `trackRef.current` being `null`.  The arithmetic
`((clientX - rect.left) / rect.width) * 100` then
`Math.min(100, Math.max(0, percent))` is computed in `JSNum` because a
zero `rect.width` produces IEEE special values. -/
def getPositionFromEvent (track : Option TrackRect) (e : SliderEvent) : JSNum :=
  match track with
  | none => .fin 0
  | some rect =>
    match eventClientX e with
    | none => .fin 0
    | some clientX =>
      let percent :=
        jsMul (jsDiv (jsSub (.fin clientX) (.fin rect.left)) (.fin rect.width)) (.fin 100)
      jsMin (.fin 100) (jsMax (.fin 0) percent)

/-- Which thumb a drag session belongs to (`draggingRef.current` when
non-null): `'left'`, `'right'` or `'single'`. -/
inductive DragType where
  | left : DragType
  | right : DragType
  | single : DragType
deriving DecidableEq

/-- The five global document listeners the slider registers. -/
inductive ListenerKind where
  | mousemove : ListenerKind
  | mouseup : ListenerKind
  | touchmove : ListenerKind
  | touchend : ListenerKind
  | touchcancel : ListenerKind
deriving DecidableEq

/-- Mutable interaction state: `draggingRef.current` and the set of
global listeners currently registered on `document`. -/
structure SliderState where
  dragging : Option DragType
  listeners : List ListenerKind
deriving DecidableEq

/-- `document.addEventListener` for a fixed handler: registering the same
(kind, handler) pair twice is a no-op. -/
def addEventListener (ls : List ListenerKind) (k : ListenerKind) : List ListenerKind :=
  if k ∈ ls then ls else ls ++ [k]

/-- `document.removeEventListener` for a fixed handler: removes the
registration if present, otherwise a no-op. -/
def removeEventListener (ls : List ListenerKind) (k : ListenerKind) : List ListenerKind :=
  ls.filter (fun x => x ≠ k)

/-- An outward notification: `onChange(value)` or
`onRangeChange([low, high])`. -/
inductive SliderOutput where
  | change : ℚ → SliderOutput
  | rangeChange : ℚ → ℚ → SliderOutput
deriving DecidableEq

/-- Embedding of the move handler `handleMoveRef.current` (lines
100-124), parametrised by the already-resolved track fraction `percent`
(the output of `getPositionFromEvent`, which for a measurable track is a
plain rational).  Returns the (unchanged) state together with the emitted
notification, if any: the handler bails out when `disabled` is set or no
drag is active, and otherwise emits per the active drag type. -/
def handleMove (cfg : SliderConfig) (s : SliderState) (percent : ℚ) :
    SliderState × Option SliderOutput :=
  if cfg.disabled then (s, none)
  else
    match s.dragging with
    | none => (s, none)
    | some .single => (s, some (.change (percentToValue cfg percent)))
    | some .left =>
        let currentRange := cfg.rangeValue
        let newLeft := min (percentToValue cfg percent) (currentRange.2 - cfg.step)
        (s, some (.rangeChange newLeft currentRange.2))
    | some .right =>
        let currentRange := cfg.rangeValue
        let newRight := max (percentToValue cfg percent) (currentRange.1 + cfg.step)
        (s, some (.rangeChange currentRange.1 newRight))

/-- Embedding of `handleEndRef.current` (lines 127-137): clears
`draggingRef` and unconditionally removes all five global listeners. -/
def handleEnd (s : SliderState) : SliderState :=
  { dragging := none
    listeners :=
      removeEventListener (removeEventListener (removeEventListener
        (removeEventListener (removeEventListener s.listeners
          .mousemove) .mouseup) .touchmove) .touchend) .touchcancel }

/-- Embedding of `startDragging` (lines 140-152): guarded by `disabled`,
sets `draggingRef` and registers the five global listeners. -/
def startDragging (cfg : SliderConfig) (s : SliderState) (dragType : DragType) :
    SliderState :=
  if cfg.disabled then s
  else
    { dragging := some dragType
      listeners :=
        addEventListener (addEventListener (addEventListener
          (addEventListener (addEventListener s.listeners
            .mousemove) .mouseup) .touchmove) .touchend) .touchcancel }

/-- Slider mode: one thumb or two. -/
inductive SliderType where
  | single : SliderType
  | range : SliderType
deriving DecidableEq

/-- Embedding of `handleTrackInteraction` (lines 174-198), parametrised
by the resolved track fraction: in range mode the thumb with strictly
smaller distance to the resolved value is moved, the `else` branch (ties
included) moving the right/high thumb. -/
def handleTrackInteraction (cfg : SliderConfig) (type : SliderType) (percent : ℚ) :
    Option SliderOutput :=
  if cfg.disabled then none
  else
    let newValue := percentToValue cfg percent
    match type with
    | .single => some (.change newValue)
    | .range =>
        let leftDist := |newValue - cfg.rangeValue.1|
        let rightDist := |newValue - cfg.rangeValue.2|
        if leftDist < rightDist then
          some (.rangeChange (min newValue (cfg.rangeValue.2 - cfg.step)) cfg.rangeValue.2)
        else
          some (.rangeChange cfg.rangeValue.1 (max newValue (cfg.rangeValue.1 + cfg.step)))

/-- Outputs of a whole drag session: the notifications emitted by a
sequence of move events, all processed in state `s` (the move handler
never mutates `draggingRef` or the listener set, and the caller's
`rangeValue` prop is whatever `propsRef` holds at each event). -/
def sessionOutputs (cfg : SliderConfig) (s : SliderState) (ps : List ℚ) :
    List SliderOutput :=
  ps.filterMap (fun p => (handleMove cfg s p).2)

/-- Refinement model following the spec's words: rounding with
round-half-away-from-zero semantics (ties move away from zero). -/
def roundHalfAwayFromZero (x : ℚ) : ℚ :=
  if 0 ≤ x then (⌊x + 1/2⌋ : ℤ) else -(⌊-x + 1/2⌋ : ℤ)

/-- Refinement model following the spec's words for `fractionToValue`:
`raw = min + fraction/100 * (max-min)`;
`stepped = round(raw / step) * step` with round-half-away-from-zero;
result clamped to `[min, max]`. -/
def fractionToValueSpec (mn mx st fraction : ℚ) : ℚ :=
  let raw := mn + fraction / 100 * (mx - mn)
  let stepped := roundHalfAwayFromZero (raw / st) * st
  min mx (max mn stepped)

/-- JavaScript addition `a + b` on `JSNum` (IEEE-754 semantics). -/
def jsAdd : JSNum → JSNum → JSNum
  | .nan, _ => .nan
  | _, .nan => .nan
  | .posInf, .negInf => .nan
  | .negInf, .posInf => .nan
  | .posInf, _ => .posInf
  | .negInf, _ => .negInf
  | .fin _, .posInf => .posInf
  | .fin _, .negInf => .negInf
  | .fin a, .fin b => .fin (a + b)

/-- JavaScript `Math.round` extended to the full number type: `NaN` and
the infinities are returned unchanged, finite values round half-up. -/
def jsRoundN : JSNum → JSNum
  | .nan => .nan
  | .posInf => .posInf
  | .negInf => .negInf
  | .fin q => .fin (jsRound q)

/-- JavaScript comparison `a <= b` on `JSNum`: false whenever either side
is `NaN` (IEEE-754 semantics). -/
def jsLe : JSNum → JSNum → Bool
  | .nan, _ => false
  | _, .nan => false
  | .negInf, _ => true
  | _, .posInf => true
  | .posInf, _ => false
  | .fin _, .negInf => false
  | .fin a, .fin b => a ≤ b

/-- An outward notification carrying raw JavaScript numbers, as the
callbacks actually receive them (a `NaN` produced by the geometry
pipeline is passed through to `onChange` / `onRangeChange`). -/
inductive SliderOutputJS where
  | change : JSNum → SliderOutputJS
  | rangeChange : JSNum → JSNum → SliderOutputJS
deriving DecidableEq

/-- Embedding of `percentToValue` (lines 67-72) over raw JavaScript
numbers: the same `rawValue` / `steppedValue` / clamp pipeline, but
computed in `JSNum` so that a `NaN` or infinite `percent` propagates as
it does in the source. -/
def percentToValueJS (cfg : SliderConfig) (percent : JSNum) : JSNum :=
  let rawValue := jsAdd (jsMul (jsDiv percent (.fin 100)) (.fin (cfg.max - cfg.min)))
    (.fin cfg.min)
  let steppedValue := jsMul (jsRoundN (jsDiv rawValue (.fin cfg.step))) (.fin cfg.step)
  jsMin (.fin cfg.max) (jsMax (.fin cfg.min) steppedValue)

/-- Embedding of the move handler `handleMoveRef.current` (lines 100-124)
over the full event pipeline: the fraction is resolved through
`getPositionFromEvent` (so a zero-width track feeds `NaN` or a clamped
infinity into the value computation) and the emitted notification carries
raw JavaScript numbers. -/
def handleMoveEvent (cfg : SliderConfig) (s : SliderState)
    (track : Option TrackRect) (e : SliderEvent) :
    SliderState × Option SliderOutputJS :=
  if cfg.disabled then (s, none)
  else
    match s.dragging with
    | none => (s, none)
    | some d =>
        let percent := getPositionFromEvent track e
        let newValue := percentToValueJS cfg percent
        match d with
        | .single => (s, some (.change newValue))
        | .left =>
            let newLeft := jsMin newValue (jsSub (.fin cfg.rangeValue.2) (.fin cfg.step))
            (s, some (.rangeChange newLeft (.fin cfg.rangeValue.2)))
        | .right =>
            let newRight := jsMax newValue (jsAdd (.fin cfg.rangeValue.1) (.fin cfg.step))
            (s, some (.rangeChange (.fin cfg.rangeValue.1) newRight))

/-- Concrete configuration used by witness instantiations: a range slider
over `[0, 100]` with step 1 and current range `(10, 90)`. -/
def cfgRange : SliderConfig :=
  { min := 0, max := 100, step := 1, value := 50, rangeValue := (10, 90), disabled := false }

/-- Concrete configuration for witness instantiations whose step (3) does
not divide the span. -/
def cfgStep3 : SliderConfig :=
  { min := 0, max := 100, step := 3, value := 0, rangeValue := (0, 0), disabled := false }

/-- On a finite fraction with a non-zero step, the JavaScript-number
value pipeline agrees with the rational one. -/
theorem percentToValueJS_fin (cfg : SliderConfig) (p : ℚ) (hst : cfg.step ≠ 0) :
    percentToValueJS cfg (.fin p) = .fin (percentToValue cfg p) := by
  norm_num [percentToValueJS, percentToValue, jsAdd, jsDiv, jsMul, jsMax, jsMin,
    jsRoundN, hst]

/-- Counterexample to C1: with a measurable zero-width track and the
pointer at the track origin, the resolved fraction is `NaN`; dragging the
Low handle of a `(10, 90)` range slider then emits
`onRangeChange([NaN, 90])`, and `NaN ≤ 90 - step` is false — the
separation invariant is not preserved by every drag move. -/
theorem C1_counterexample :
    (handleMoveEvent cfgRange { dragging := some .left, listeners := [] }
        (some { left := 0, width := 0 })
        { touches := none, changedTouches := none, clientX := some 0 }).2
      = some (.rangeChange JSNum.nan (.fin 90)) ∧
    jsLe JSNum.nan (jsSub (.fin 90) (.fin cfgRange.step)) = false := by
  constructor
  · norm_num [handleMoveEvent, percentToValueJS, getPositionFromEvent, eventClientX,
      jsSub, jsDiv, jsMul, jsAdd, jsMax, jsMin, jsRoundN, cfgRange]
  · rfl

/-- C1 amended: in range mode, for every move event during a drag session
whose resolved track fraction is a (finite) number — in particular
whenever the track is measurable with positive width — and whose input
pair `(low, high)` satisfies `low ≤ high - step` with both in
`[min, max]` and `step > 0`: dragging the Low handle emits
`(min(computedValue, high - step), high)`, dragging the High handle emits
`(low, max(computedValue, low + step))`, and every emitted pair is a pair
of finite numbers satisfying `low ≤ high - step`; a zero-width track can
instead resolve the fraction to `NaN` and emit a `NaN` component. -/
theorem C1_amended_separation_finite_fraction (cfg : SliderConfig) (s : SliderState)
    (track : Option TrackRect) (e : SliderEvent) (p : ℚ) (lo hi : JSNum)
    (hp : getPositionFromEvent track e = .fin p) (hst : 0 < cfg.step)
    (hlo : cfg.min ≤ cfg.rangeValue.1) (hhi : cfg.rangeValue.2 ≤ cfg.max)
    (hsep : cfg.rangeValue.1 ≤ cfg.rangeValue.2 - cfg.step)
    (hout : (handleMoveEvent cfg s track e).2 = some (.rangeChange lo hi)) :
    (s.dragging = some .left →
        lo = .fin (min (percentToValue cfg p) (cfg.rangeValue.2 - cfg.step)) ∧
        hi = .fin cfg.rangeValue.2) ∧
    (s.dragging = some .right →
        hi = .fin (max (percentToValue cfg p) (cfg.rangeValue.1 + cfg.step)) ∧
        lo = .fin cfg.rangeValue.1) ∧
    ∃ l h : ℚ, lo = .fin l ∧ hi = .fin h ∧ l ≤ h - cfg.step := by
  have hpv : percentToValueJS cfg (getPositionFromEvent track e)
      = .fin (percentToValue cfg p) := by
    rw [hp]
    exact percentToValueJS_fin cfg p hst.ne'
  by_cases hd : cfg.disabled
  · simp [handleMoveEvent, hd] at hout
  · rcases hdr : s.dragging with _ | dt
    · simp [handleMoveEvent, hd, hdr] at hout
    · cases dt with
      | left =>
        simp only [handleMoveEvent, hd, hdr, if_false, Bool.false_eq_true,
          hpv, jsSub, jsMin, Option.some.injEq, SliderOutputJS.rangeChange.injEq] at hout
        obtain ⟨h1, h2⟩ := hout
        refine ⟨fun _ => ⟨h1.symm, h2.symm⟩,
          fun hc => absurd hc (by decide), ?_⟩
        exact ⟨min (percentToValue cfg p) (cfg.rangeValue.2 - cfg.step),
          cfg.rangeValue.2, h1.symm, h2.symm, min_le_right _ _⟩
      | right =>
        simp only [handleMoveEvent, hd, hdr, if_false, Bool.false_eq_true,
          hpv, jsAdd, jsMax, Option.some.injEq, SliderOutputJS.rangeChange.injEq] at hout
        obtain ⟨h1, h2⟩ := hout
        refine ⟨fun hc => absurd hc (by decide),
          fun _ => ⟨h2.symm, h1.symm⟩, ?_⟩
        refine ⟨cfg.rangeValue.1,
          max (percentToValue cfg p) (cfg.rangeValue.1 + cfg.step), h1.symm, h2.symm, ?_⟩
        have hge := le_max_right (percentToValue cfg p) (cfg.rangeValue.1 + cfg.step)
        linarith
      | single =>
        simp [handleMoveEvent, hd, hdr] at hout

/-- Witness for C1 amended: on a 200-wide track at coordinate 100 the
fraction resolves to the finite value 50; dragging the Low handle of a
`(10, 90)` range slider over `[0, 100]`, step 1, emits `(50, 90)`, which
keeps the separation `50 ≤ 90 - 1`. -/
theorem C1_witness :
    (getPositionFromEvent (some { left := 0, width := 200 })
        { touches := none, changedTouches := none, clientX := some 100 }
      = .fin 50) ∧
    ((0:ℚ) < 1 ∧ (0:ℚ) ≤ 10 ∧ (90:ℚ) ≤ 100 ∧ (10:ℚ) ≤ 90 - 1) ∧
    (handleMoveEvent cfgRange { dragging := some .left, listeners := [] }
        (some { left := 0, width := 200 })
        { touches := none, changedTouches := none, clientX := some 100 }).2
      = some (.rangeChange (.fin 50) (.fin 90)) ∧
    ∃ l h : ℚ, JSNum.fin 50 = .fin l ∧ JSNum.fin 90 = .fin h ∧ l ≤ h - cfgRange.step := by
  have hp : getPositionFromEvent (some { left := 0, width := 200 })
      { touches := none, changedTouches := none, clientX := some 100 } = .fin 50 := by
    norm_num [getPositionFromEvent, eventClientX, jsSub, jsDiv, jsMul, jsMax, jsMin]
  have hout : (handleMoveEvent cfgRange { dragging := some .left, listeners := [] }
      (some { left := 0, width := 200 })
      { touches := none, changedTouches := none, clientX := some 100 }).2
      = some (.rangeChange (.fin 50) (.fin 90)) := by
    norm_num [handleMoveEvent, percentToValueJS, getPositionFromEvent, eventClientX,
      jsSub, jsDiv, jsMul, jsAdd, jsMax, jsMin, jsRoundN, jsRound, cfgRange]
  refine ⟨hp, ⟨by norm_num, by norm_num, by norm_num, by norm_num⟩, hout, ?_⟩
  exact (C1_amended_separation_finite_fraction cfgRange
    { dragging := some .left, listeners := [] }
    (some { left := 0, width := 200 })
    { touches := none, changedTouches := none, clientX := some 100 } 50
    (.fin 50) (.fin 90) hp (by norm_num [cfgRange]) (by norm_num [cfgRange])
    (by norm_num [cfgRange]) (by norm_num [cfgRange]) hout).2.2

/-- C9: a drag move in range mode changes only the dragged handle's
component: dragging Low emits a pair whose high component is the current
high value, dragging High emits a pair whose low component is the current
low value. -/
theorem C9_drag_frame_condition (cfg : SliderConfig) (s : SliderState)
    (percent lo hi : ℚ)
    (hout : (handleMove cfg s percent).2 = some (.rangeChange lo hi)) :
    (s.dragging = some .left → hi = cfg.rangeValue.2) ∧
    (s.dragging = some .right → lo = cfg.rangeValue.1) := by
  by_cases hd : cfg.disabled
  · simp [handleMove, hd] at hout
  · rcases hdr : s.dragging with _ | dt
    · simp [handleMove, hd, hdr] at hout
    · cases dt with
      | left =>
        simp only [handleMove, hd, hdr, if_false, Bool.false_eq_true,
          Option.some.injEq, SliderOutput.rangeChange.injEq] at hout
        exact ⟨fun _ => hout.2.symm, fun hc => absurd hc (by decide)⟩
      | right =>
        simp only [handleMove, hd, hdr, if_false, Bool.false_eq_true,
          Option.some.injEq, SliderOutput.rangeChange.injEq] at hout
        exact ⟨fun hc => absurd hc (by decide), fun _ => hout.1.symm⟩
      | single =>
        simp [handleMove, hd, hdr] at hout

/-- Witness for C9: dragging the High handle of a `(10, 90)` range slider
to fraction 30 emits `(10, 30)` — the low component is the current low
value 10, unchanged. -/
theorem C9_witness :
    (handleMove cfgRange { dragging := some .right, listeners := [] } 30).2
        = some (.rangeChange 10 30) ∧
    (10 : ℚ) = cfgRange.rangeValue.1 := by
  have hout : (handleMove cfgRange { dragging := some .right, listeners := [] } 30).2
      = some (.rangeChange 10 30) := by
    norm_num [handleMove, percentToValue, jsRound, cfgRange]
  exact ⟨hout, (C9_drag_frame_condition cfgRange
    { dragging := some .right, listeners := [] } 30 10 30 hout).2 rfl⟩

/-- Counterexample to C2: the move handler performs no deduplication
against the last reported value — two consecutive moves resolving to the
same value 50 emit two `onChange(50)` notifications, not at most one. -/
theorem C2_counterexample :
    sessionOutputs
        { min := 0, max := 100, step := 1, value := 50,
          rangeValue := (25, 75), disabled := false }
        { dragging := some .single, listeners := [] } [50, 50]
      = [.change 50, .change 50] ∧
    ¬ (sessionOutputs
        { min := 0, max := 100, step := 1, value := 50,
          rangeValue := (25, 75), disabled := false }
        { dragging := some .single, listeners := [] } [50, 50]).count
        (.change 50) ≤ 1 := by
  have h : sessionOutputs
      { min := 0, max := 100, step := 1, value := 50,
        rangeValue := (25, 75), disabled := false }
      { dragging := some .single, listeners := [] } [50, 50]
      = [.change 50, .change 50] := by
    norm_num [sessionOutputs, handleMove, percentToValue, jsRound, List.filterMap]
  refine ⟨h, ?_⟩
  rw [h]
  decide

/-- C2 amended: during an active, non-disabled drag session the move
handler emits a notification on every move event, with no deduplication
against the value last reported in the session. -/
theorem C2_amended_notification_every_move (cfg : SliderConfig) (s : SliderState)
    (percent : ℚ) (hd : cfg.disabled = false) (hdrag : s.dragging ≠ none) :
    ((handleMove cfg s percent).2).isSome := by
  rcases hdr : s.dragging with _ | dt
  · exact absurd hdr hdrag
  · cases dt <;> simp [handleMove, hd, hdr]

/-- Witness for C2 amended: a single-thumb drag at fraction 50 does emit
a notification. -/
theorem C2_amended_witness :
    ({ min := 0, max := 100, step := 1, value := 50, rangeValue := (25, 75),
        disabled := false } : SliderConfig).disabled = false ∧
    (({ dragging := some .single, listeners := [] } : SliderState).dragging
      ≠ none) ∧
    ((handleMove
        { min := 0, max := 100, step := 1, value := 50, rangeValue := (25, 75),
          disabled := false }
        { dragging := some .single, listeners := [] } 50).2).isSome := by
  exact ⟨rfl, by simp, C2_amended_notification_every_move _ _ 50 rfl (by simp)⟩

/-- Counterexample to C3: `percentToValue` uses JavaScript `Math.round`,
which rounds ties toward positive infinity, not away from zero.  With
`min = -10`, `max = 10`, `step = 2`, fraction 25: `raw = -5`,
`raw/step = -2.5`; the code rounds to `-2` giving `-4`, while
round-half-away-from-zero gives `-3`, i.e. `-6`. -/
theorem C3_counterexample :
    percentToValue
        { min := -10, max := 10, step := 2, value := 0, rangeValue := (0, 0),
          disabled := false } 25 = -4 ∧
    fractionToValueSpec (-10) 10 2 25 = -6 ∧
    ((-4 : ℚ) ≠ -6) := by
  refine ⟨?_, ?_, by norm_num⟩
  · norm_num [percentToValue, jsRound]
  · norm_num [fractionToValueSpec, roundHalfAwayFromZero]

/-- C3 amended: for every fraction and every range with `min < max` and
`step > 0`, `percentToValue` computes `raw = min + fraction/100 *
(max - min)`, rounds `raw/step` to the nearest integer with ties rounding
toward positive infinity (the integer `n` with
`n - 1/2 ≤ raw/step < n + 1/2`), multiplies by `step`, and clamps the
result to `[min, max]`. -/
theorem C3_amended_round_half_up (cfg : SliderConfig) (fraction : ℚ)
    (hmn : cfg.min < cfg.max) (hst : 0 < cfg.step) :
    ∃ n : ℤ,
      ((n : ℚ) - 1/2 ≤ (fraction / 100 * (cfg.max - cfg.min) + cfg.min) / cfg.step ∧
        (fraction / 100 * (cfg.max - cfg.min) + cfg.min) / cfg.step < (n : ℚ) + 1/2) ∧
      percentToValue cfg fraction = min cfg.max (max cfg.min ((n : ℚ) * cfg.step)) := by
  refine ⟨⌊(fraction / 100 * (cfg.max - cfg.min) + cfg.min) / cfg.step + 1/2⌋,
    ⟨?_, ?_⟩, rfl⟩
  · have h := Int.floor_le ((fraction / 100 * (cfg.max - cfg.min) + cfg.min) / cfg.step + 1/2)
    linarith
  · have h := Int.lt_floor_add_one
      ((fraction / 100 * (cfg.max - cfg.min) + cfg.min) / cfg.step + 1/2)
    linarith

/-- Witness for C3 amended: step 3 over `[0, 100]` at fraction 50 —
`raw/step = 50/3`, rounded to 17, result `51`. -/
theorem C3_witness :
    (cfgStep3.min < cfgStep3.max ∧ (0 : ℚ) < cfgStep3.step) ∧
    ∃ n : ℤ,
      ((n : ℚ) - 1/2 ≤ (50 / 100 * (cfgStep3.max - cfgStep3.min) + cfgStep3.min) / cfgStep3.step ∧
        (50 / 100 * (cfgStep3.max - cfgStep3.min) + cfgStep3.min) / cfgStep3.step < (n : ℚ) + 1/2) ∧
      percentToValue cfgStep3 50 = min cfgStep3.max (max cfgStep3.min ((n : ℚ) * cfgStep3.step)) :=
  ⟨⟨by norm_num [cfgStep3], by norm_num [cfgStep3]⟩,
    C3_amended_round_half_up cfgStep3 50 (by norm_num [cfgStep3]) (by norm_num [cfgStep3])⟩

/-- Counterexample to C4: with `min = 1`, `max = 10`, `step = 2`,
fraction 0, the code produces `raw = 1`, `round(1/2) = 1`, value `2`;
`value - min = 1` is not an integer multiple of `step = 2` — the stepped
value is a multiple of `step` from zero, not an offset from `min`. -/
theorem C4_counterexample :
    percentToValue
        { min := 1, max := 10, step := 2, value := 1, rangeValue := (1, 1),
          disabled := false } 0 = 2 ∧
    ¬ ∃ k : ℤ, (2 : ℚ) - 1 = (k : ℚ) * 2 := by
  constructor
  · norm_num [percentToValue, jsRound]
  · rintro ⟨k, hk⟩
    have h : (1 : ℚ) = ((2 * k : ℤ) : ℚ) := by push_cast; linarith
    have h2 : (1 : ℤ) = 2 * k := by exact_mod_cast h
    omega

/-- C4 amended: for every fraction and every range with `min < max` and
`step > 0`, the value produced by `percentToValue` satisfies
`min ≤ value ≤ max`, and it is either an integer multiple of `step`
(counted from zero, not from `min`) or one of the clamp bounds `min`,
`max`. -/
theorem C4_amended_bounds_and_multiple (cfg : SliderConfig) (fraction : ℚ)
    (hmn : cfg.min < cfg.max) (hst : 0 < cfg.step) :
    cfg.min ≤ percentToValue cfg fraction ∧
    percentToValue cfg fraction ≤ cfg.max ∧
    (percentToValue cfg fraction = cfg.min ∨ percentToValue cfg fraction = cfg.max ∨
      ∃ k : ℤ, percentToValue cfg fraction = (k : ℚ) * cfg.step) := by
  have hmnle : cfg.min ≤ cfg.max := le_of_lt hmn
  have hPT : percentToValue cfg fraction
      = min cfg.max (max cfg.min
          (jsRound ((fraction / 100 * (cfg.max - cfg.min) + cfg.min) / cfg.step)
            * cfg.step)) := rfl
  rw [hPT]
  set sv := jsRound ((fraction / 100 * (cfg.max - cfg.min) + cfg.min) / cfg.step) * cfg.step
    with hsv
  refine ⟨le_min hmnle (le_max_left _ _), min_le_left _ _, ?_⟩
  rcases le_total sv cfg.min with h | h
  · left
    rw [max_eq_left h, min_eq_right hmnle]
  · rcases le_total sv cfg.max with h2 | h2
    · right; right
      refine ⟨⌊(fraction / 100 * (cfg.max - cfg.min) + cfg.min) / cfg.step + 1/2⌋, ?_⟩
      rw [max_eq_right h, min_eq_right h2, hsv]
      rfl
    · right; left
      rw [max_eq_right h, min_eq_left h2]

/-- Witness for C4 amended: on `[0, 100]`, step 1, fraction 50, the value
50 is in bounds and a multiple of the step. -/
theorem C4_witness :
    (cfgRange.min < cfgRange.max ∧ (0 : ℚ) < cfgRange.step) ∧
    (cfgRange.min ≤ percentToValue cfgRange 50 ∧
      percentToValue cfgRange 50 ≤ cfgRange.max ∧
      (percentToValue cfgRange 50 = cfgRange.min ∨
        percentToValue cfgRange 50 = cfgRange.max ∨
        ∃ k : ℤ, percentToValue cfgRange 50 = (k : ℚ) * cfgRange.step)) :=
  ⟨⟨by norm_num [cfgRange], by norm_num [cfgRange]⟩,
    C4_amended_bounds_and_multiple cfgRange 50
      (by norm_num [cfgRange]) (by norm_num [cfgRange])⟩

/-- Counterexample to C5: on a `(10, 90)` range slider over `[0, 100]`,
a tap resolving to 50 is equidistant from both handles; the code's
`leftDist < rightDist` test fails on the tie, so the `else` branch moves
the High handle, emitting `[10, 50]` — not the Low handle as the claim's
tie-break states (which would emit `[50, 90]`). -/
theorem C5_counterexample :
    percentToValue cfgRange 50 = 50 ∧
    |(50 : ℚ) - 10| = |(50 : ℚ) - 90| ∧
    handleTrackInteraction cfgRange .range 50 = some (.rangeChange 10 50) ∧
    handleTrackInteraction cfgRange .range 50 ≠ some (.rangeChange 50 90) := by
  refine ⟨?_, by norm_num, ?_, ?_⟩
  · norm_num [percentToValue, jsRound, cfgRange]
  · norm_num [handleTrackInteraction, percentToValue, jsRound, cfgRange]
  · norm_num [handleTrackInteraction, percentToValue, jsRound, cfgRange]

/-- C5 amended: a track tap in range mode updates only the handle whose
current value is strictly closer to the resolved value, with ties (equal
distance) broken toward the High handle; the Scenario D instance (tap at
40 on `(10, 90)`) still updates only the Low handle. -/
theorem C5_amended_closest_handle (cfg : SliderConfig) (percent : ℚ)
    (hd : cfg.disabled = false) :
    (|percentToValue cfg percent - cfg.rangeValue.1|
        < |percentToValue cfg percent - cfg.rangeValue.2| →
      handleTrackInteraction cfg .range percent
        = some (.rangeChange
            (min (percentToValue cfg percent) (cfg.rangeValue.2 - cfg.step))
            cfg.rangeValue.2)) ∧
    (|percentToValue cfg percent - cfg.rangeValue.2|
        ≤ |percentToValue cfg percent - cfg.rangeValue.1| →
      handleTrackInteraction cfg .range percent
        = some (.rangeChange cfg.rangeValue.1
            (max (percentToValue cfg percent) (cfg.rangeValue.1 + cfg.step)))) := by
  constructor
  · intro hlt
    simp [handleTrackInteraction, hd, hlt]
  · intro hle
    simp [handleTrackInteraction, hd, not_lt.2 hle]

/-- Witness for C5 amended: Scenario D — a tap resolving to 40 on a
`(10, 90)` range slider updates only the Low handle, emitting
`onRangeChange([40, 90])`. -/
theorem C5_witness :
    cfgRange.disabled = false ∧
    handleTrackInteraction cfgRange .range 40 = some (.rangeChange 40 90) := by
  refine ⟨rfl, ?_⟩
  have h := (C5_amended_closest_handle cfgRange 40 rfl).1
    (by norm_num [percentToValue, jsRound, cfgRange])
  rw [h]
  norm_num [percentToValue, jsRound, cfgRange]

/-- Counterexample to C6: with a measurable track of zero width and the
pointer exactly at the track origin, `getPositionFromEvent` computes
`(0 - 0) / 0 = NaN`, and `Math.min(100, Math.max(0, NaN))` is `NaN` —
not 0, and not a fraction in `[0, 100]`. -/
theorem C6_counterexample :
    getPositionFromEvent (some { left := 0, width := 0 })
        { touches := none, changedTouches := none, clientX := some 0 }
      = JSNum.nan ∧
    JSNum.nan ≠ JSNum.fin 0 := by
  constructor
  · norm_num [getPositionFromEvent, eventClientX, jsSub, jsDiv, jsMul, jsMax, jsMin]
  · simp

/-- C6 amended: when the track element is not measurable (`null` ref) the
function returns fraction 0; for a measurable track of positive width the
result is a finite fraction in `[0, 100]`; for a measurable track of zero
width the result is `NaN` when the pointer sits exactly at the track
origin, 100 when it is to the right of it, and 0 when it is to the left. -/
theorem C6_amended_position_to_fraction (track : Option TrackRect) (e : SliderEvent) :
    (track = none → getPositionFromEvent track e = .fin 0) ∧
    (∀ rect : TrackRect, track = some rect → 0 < rect.width →
      ∃ p : ℚ, getPositionFromEvent track e = .fin p ∧ 0 ≤ p ∧ p ≤ 100) ∧
    (∀ rect : TrackRect, ∀ x : ℚ, track = some rect → rect.width = 0 →
      eventClientX e = some x →
      getPositionFromEvent track e =
        (if x = rect.left then JSNum.nan
         else if rect.left < x then JSNum.fin 100 else JSNum.fin 0)) := by
  refine ⟨fun ht => by rw [ht]; rfl, ?_, ?_⟩
  · intro rect ht hw
    rw [ht]
    cases hx : eventClientX e with
    | none =>
        exact ⟨0, by simp [getPositionFromEvent, hx], le_refl 0, by norm_num⟩
    | some x =>
        refine ⟨min 100 (max 0 ((x - rect.left) / rect.width * 100)), ?_, ?_, ?_⟩
        · simp [getPositionFromEvent, hx, jsSub, jsDiv, jsMul, jsMax, jsMin, ne_of_gt hw]
        · exact le_min (by norm_num) (le_max_left 0 _)
        · exact min_le_left _ _
  · intro rect x ht hw hx
    rw [ht]
    rcases lt_trichotomy x rect.left with h | h | h
    · rw [if_neg (ne_of_lt h), if_neg (not_lt.2 (le_of_lt h))]
      simp [getPositionFromEvent, hx, jsSub, jsDiv, jsMul, jsMax, jsMin, hw,
        sub_eq_zero, ne_of_lt h, not_lt.2 (sub_nonpos.2 (le_of_lt h)),
        min_eq_right (by norm_num : (0:ℚ) ≤ 100)]
    · rw [if_pos h]
      simp [getPositionFromEvent, hx, jsSub, jsDiv, jsMul, jsMax, jsMin, hw, h]
    · rw [if_neg (ne_of_gt h), if_pos h]
      simp [getPositionFromEvent, hx, jsSub, jsDiv, jsMul, jsMax, jsMin, hw,
        sub_eq_zero, ne_of_gt h, sub_pos.2 h]

/-- Witness for C6 amended: a zero-width track with the pointer at
coordinate 5, right of the origin 0, yields fraction 100 (not 0). -/
theorem C6_witness :
    getPositionFromEvent (some { left := 0, width := 0 })
        { touches := none, changedTouches := none, clientX := some 5 }
      = .fin 100 := by
  have h := (C6_amended_position_to_fraction (some { left := 0, width := 0 })
      { touches := none, changedTouches := none, clientX := some 5 }).2.2
      { left := 0, width := 0 } 5 rfl rfl rfl
  rw [h]
  norm_num

/-- After `handleEnd` removes the five listener kinds, no registration
remains, since those five are the only kinds the slider ever uses. -/
theorem handleEnd_listeners_empty (s : SliderState) : (handleEnd s).listeners = [] := by
  rw [List.eq_nil_iff_forall_not_mem]
  intro k hk
  simp only [handleEnd, removeEventListener, List.mem_filter, decide_eq_true_eq,
    ne_eq] at hk
  cases k <;> tauto

/-- C7: session teardown is idempotent — applying the end/cancel handler
twice from any state yields the same state as applying it once (no drag
active, all global listeners unregistered), so the second application has
no additional observable teardown effect. -/
theorem C7_teardown_idempotent (s : SliderState) :
    handleEnd (handleEnd s) = handleEnd s ∧
    (handleEnd s).dragging = none ∧
    (handleEnd s).listeners = [] := by
  refine ⟨?_, rfl, handleEnd_listeners_empty s⟩
  have h1 : handleEnd s = { dragging := none, listeners := [] } := by
    rw [← handleEnd_listeners_empty s]
    rfl
  rw [h1]
  rfl

/-- C8: a move event delivered when no drag session is active (for
example after teardown) has no observable effect: the state is unchanged
and no notification is emitted; in particular this holds for the state
produced by `handleEnd`. -/
theorem C8_move_after_teardown_noop (cfg : SliderConfig) (s : SliderState)
    (percent : ℚ) (h : s.dragging = none) :
    handleMove cfg s percent = (s, none) ∧
    handleMove cfg (handleEnd s) percent = (handleEnd s, none) := by
  constructor
  · by_cases hd : cfg.disabled <;> simp [handleMove, hd, h]
  · by_cases hd : cfg.disabled <;> simp [handleMove, hd, handleEnd]

/-- Witness for C8: a move at fraction 50 in the idle state emits nothing
and leaves the state untouched. -/
theorem C8_witness :
    (({ dragging := none, listeners := [] } : SliderState).dragging = none) ∧
    handleMove cfgRange { dragging := none, listeners := [] } 50
      = ({ dragging := none, listeners := [] }, none) :=
  ⟨rfl, (C8_move_after_teardown_noop cfgRange
    { dragging := none, listeners := [] } 50 rfl).1⟩

/-- C10: `getPositionFromEvent` is total over event shapes — an event
carrying no non-empty `touches` list, no non-empty `changedTouches` list
and no `clientX` field yields fraction 0 instead of failing, for any
track state. -/
theorem C10_total_over_event_shapes (track : Option TrackRect) (e : SliderEvent)
    (ht : e.touches = none ∨ e.touches = some [])
    (hct : e.changedTouches = none ∨ e.changedTouches = some [])
    (hx : e.clientX = none) :
    getPositionFromEvent track e = .fin 0 := by
  have hcx : eventClientX e = none := by
    rcases ht with h | h <;> rcases hct with h2 | h2 <;>
      simp [eventClientX, h, h2, hx]
  cases track with
  | none => rfl
  | some rect => simp [getPositionFromEvent, hcx]

/-- Witness for C10: an event with an empty `touches` list, no
`changedTouches` and no `clientX` resolves to fraction 0 on a measurable
track. -/
theorem C10_witness :
    (({ touches := some [], changedTouches := none, clientX := none } :
        SliderEvent).touches = none ∨
      ({ touches := some [], changedTouches := none, clientX := none } :
        SliderEvent).touches = some []) ∧
    (({ touches := some [], changedTouches := none, clientX := none } :
        SliderEvent).changedTouches = none ∨
      ({ touches := some [], changedTouches := none, clientX := none } :
        SliderEvent).changedTouches = some []) ∧
    (({ touches := some [], changedTouches := none, clientX := none } :
        SliderEvent).clientX = none) ∧
    getPositionFromEvent (some { left := 3, width := 7 })
        { touches := some [], changedTouches := none, clientX := none }
      = .fin 0 :=
  ⟨Or.inr rfl, Or.inl rfl, rfl,
    C10_total_over_event_shapes (some { left := 3, width := 7 })
      { touches := some [], changedTouches := none, clientX := none }
      (Or.inr rfl) (Or.inl rfl) rfl⟩

end AsporaSlider
